import Mathlib

/-!
Verification of the ProofScore credit-scoring SDK.

This file gives a shallow embedding of the SDK core (scoring engine,
data aggregator cache, proof generator, blockchain adapter) and proves
or refutes the specified properties against it.

Numbers: the TypeScript sources manipulate JavaScript numbers that are
integer-valued everywhere the verified code paths touch them, so they
are modelled as `Int`.  `Math.round` and `Math.floor` are the identity
on integer values and are noted in comments where the source applies
them.  Network and clock effects are modelled by explicit environment
parameters (oracles) passed to the embedded functions.
-/

/- ======================================================================
   Constants (src/unnamed/part_006, `SCORING_CONFIG`, `RISK_LEVELS`,
   `CACHE_CONFIG`, `TX_POLLING`)
   ====================================================================== -/

def SCORING_CONFIG.BASE_SCORE : Int := 300

def SCORING_CONFIG.MAX_SCORE : Int := 850

def SCORING_CONFIG.BONUSES.TRANSACTION_COUNT.threshold : Int := 10

def SCORING_CONFIG.BONUSES.TRANSACTION_COUNT.pointsPer : Int := 5

def SCORING_CONFIG.BONUSES.TRANSACTION_COUNT.maxPoints : Int := 100

def SCORING_CONFIG.BONUSES.WALLET_AGE.threshold : Int := 3

def SCORING_CONFIG.BONUSES.WALLET_AGE.pointsPerMonth : Int := 10

def SCORING_CONFIG.BONUSES.WALLET_AGE.maxPoints : Int := 100

def SCORING_CONFIG.BONUSES.DEFI_SCORE.threshold : Int := 20

def SCORING_CONFIG.BONUSES.DEFI_SCORE.pointsPer : Int := 3

def SCORING_CONFIG.BONUSES.DEFI_SCORE.maxPoints : Int := 100

def SCORING_CONFIG.BONUSES.REPAYMENT_RATE.threshold : Int := 75

def SCORING_CONFIG.BONUSES.REPAYMENT_RATE.pointsPer : Int := 2

def SCORING_CONFIG.BONUSES.REPAYMENT_RATE.maxPoints : Int := 150

def RISK_LEVELS.LOW.minScore : Int := 750

def RISK_LEVELS.MEDIUM.minScore : Int := 500

def RISK_LEVELS.HIGH.minScore : Int := 0

def CACHE_CONFIG.METRICS_TTL : Int := 1000 * 60 * 60

def CACHE_CONFIG.MAX_CACHE_SIZE : Nat := 100

def TX_POLLING.INTERVAL : Nat := 500

def TX_POLLING.MAX_ATTEMPTS : Nat := 20

/- ======================================================================
   Data model (src/types/sdk wallet metrics and assessment)
   ====================================================================== -/

/-- `WalletMetrics` from the SDK types: raw on-chain activity metrics. -/
structure WalletMetrics where
  address : String
  transactionCount : Int
  walletAgeMonths : Int
  defiScore : Int
  repaymentRate : Int
  tokenBalance : Int
  lastTransactionDate : Int
deriving DecidableEq

/-- `RiskLevel` from the SDK types. -/
inductive RiskLevel where
  | low
  | medium
  | high
deriving DecidableEq

/-- `CreditAssessment` from the SDK types. -/
structure CreditAssessment where
  address : String
  metrics : WalletMetrics
  baseScore : Int
  bonusPoints : Int
  finalScore : Int
  riskLevel : RiskLevel
  timestamp : Int
deriving DecidableEq

/-- `String.prototype.startsWith`, modelled on the character list so
that concrete instances reduce in the kernel. -/
def jsStartsWith (s pre : String) : Bool := pre.data.isPrefixOf s.data

/- ======================================================================
   ScoringEngine (src/lib/sdk/ScoringEngine.ts)
   ====================================================================== -/

namespace ScoringEngine

/-- `ScoringEngine.calculateTransactionBonus`:
`if (count < threshold) return 0; return Math.min((count - threshold) * pointsPer, maxPoints)`. -/
def calculateTransactionBonus (count : Int) : Int :=
  if count < SCORING_CONFIG.BONUSES.TRANSACTION_COUNT.threshold then 0
  else
    min ((count - SCORING_CONFIG.BONUSES.TRANSACTION_COUNT.threshold) *
          SCORING_CONFIG.BONUSES.TRANSACTION_COUNT.pointsPer)
        SCORING_CONFIG.BONUSES.TRANSACTION_COUNT.maxPoints

/-- `ScoringEngine.calculateAgeBonus`: note the source multiplies the
whole `months` value, not the excess above the threshold. -/
def calculateAgeBonus (months : Int) : Int :=
  if months < SCORING_CONFIG.BONUSES.WALLET_AGE.threshold then 0
  else
    min (months * SCORING_CONFIG.BONUSES.WALLET_AGE.pointsPerMonth)
        SCORING_CONFIG.BONUSES.WALLET_AGE.maxPoints

/-- `ScoringEngine.calculateDeFiBonus`. -/
def calculateDeFiBonus (score : Int) : Int :=
  if score < SCORING_CONFIG.BONUSES.DEFI_SCORE.threshold then 0
  else
    min ((score - SCORING_CONFIG.BONUSES.DEFI_SCORE.threshold) *
          SCORING_CONFIG.BONUSES.DEFI_SCORE.pointsPer)
        SCORING_CONFIG.BONUSES.DEFI_SCORE.maxPoints

/-- `ScoringEngine.calculateRepaymentBonus`. -/
def calculateRepaymentBonus (rate : Int) : Int :=
  if rate < SCORING_CONFIG.BONUSES.REPAYMENT_RATE.threshold then 0
  else
    min ((rate - SCORING_CONFIG.BONUSES.REPAYMENT_RATE.threshold) *
          SCORING_CONFIG.BONUSES.REPAYMENT_RATE.pointsPer)
        SCORING_CONFIG.BONUSES.REPAYMENT_RATE.maxPoints

/-- `ScoringEngine.getRiskLevel`:
`if (score >= 750) low; if (score >= 500) medium; high`. -/
def getRiskLevel (score : Int) : RiskLevel :=
  if score ≥ RISK_LEVELS.LOW.minScore then RiskLevel.low
  else if score ≥ RISK_LEVELS.MEDIUM.minScore then RiskLevel.medium
  else RiskLevel.high

/-- `ScoringEngine.calculateScore`.  `now` models `Date.now()` used for
the `timestamp` field.  `Math.round` on the already-integral
`finalScore` is the identity and is elided.  The source performs no
validation here: it unconditionally computes the bonuses and returns
the assessment. -/
def calculateScore (metrics : WalletMetrics) (now : Int) : CreditAssessment :=
  let baseScore := SCORING_CONFIG.BASE_SCORE
  let txBonus := calculateTransactionBonus metrics.transactionCount
  let ageBonus := calculateAgeBonus metrics.walletAgeMonths
  let defiBonus := calculateDeFiBonus metrics.defiScore
  let repaymentBonus := calculateRepaymentBonus metrics.repaymentRate
  let totalBonus := txBonus + ageBonus + defiBonus + repaymentBonus
  let finalScore := min SCORING_CONFIG.MAX_SCORE (baseScore + totalBonus)
  { address := metrics.address
    metrics := metrics
    baseScore := baseScore
    bonusPoints := totalBonus
    finalScore := finalScore
    riskLevel := getRiskLevel finalScore
    timestamp := now }

/-- `ScoringEngine.validateMetrics`: throws (modelled as `Except.error`
with the thrown message) on the first failing check, in source order. -/
def validateMetrics (metrics : WalletMetrics) : Except String Unit :=
  if metrics.address = "" || !(jsStartsWith metrics.address "aleo1") then
    Except.error "Invalid Aleo address format"
  else if metrics.transactionCount < 0 then
    Except.error "Transaction count cannot be negative"
  else if metrics.walletAgeMonths < 0 then
    Except.error "Wallet age cannot be negative"
  else if metrics.defiScore < 0 || metrics.defiScore > 100 then
    Except.error "DeFi score must be between 0 and 100"
  else if metrics.repaymentRate < 0 || metrics.repaymentRate > 100 then
    Except.error "Repayment rate must be between 0 and 100"
  else if metrics.tokenBalance < 0 then
    Except.error "Token balance cannot be negative"
  else
    Except.ok ()

end ScoringEngine

/-- The declared ranges of the metric fields (spec data model). -/
def fieldsInRange (m : WalletMetrics) : Bool :=
  m.transactionCount ≥ 0 &&
  m.walletAgeMonths ≥ 0 &&
  (m.defiScore ≥ 0 && m.defiScore ≤ 100) &&
  (m.repaymentRate ≥ 0 && m.repaymentRate ≤ 100) &&
  m.tokenBalance ≥ 0

/-- The declared field ranges plus the address-format requisite checked
by `validateMetrics`. -/
def metricsValid (m : WalletMetrics) : Bool :=
  jsStartsWith m.address "aleo1" && fieldsInRange m

namespace CreditScoreSDK

/-- `CreditScoreSDK.fetchWalletMetrics`, specialised to the metrics the
`DataAggregator` returned for the active address: it runs
`ScoringEngine.validateMetrics` on them before handing them out. -/
def fetchWalletMetricsWith (m : WalletMetrics) : Except String WalletMetrics :=
  (ScoringEngine.validateMetrics m).map (fun _ => m)

/-- Steps 1 and 2 of `CreditScoreSDK.issueCreditFlow`: fetch (and hence
validate) the metrics, then score them.  Parametrised by the metrics
the aggregator produced and the clock. -/
def issueFlowAssessment (m : WalletMetrics) (now : Int) :
    Except String CreditAssessment :=
  (fetchWalletMetricsWith m).map (fun mm => ScoringEngine.calculateScore mm now)

end CreditScoreSDK

/- ======================================================================
   SHA-256 (the `sha256` import of src/lib/sdk/ProofGenerator.ts, from
   the noble-hashes library), over byte lists.  32-bit words are `Nat`
   reduced modulo `2 ^ 32` at every arithmetic step.
   ====================================================================== -/

namespace Sha256

def mod32 (x : Nat) : Nat := x % 2 ^ 32

def rotr32 (x n : Nat) : Nat := mod32 ((x >>> n) ||| (x <<< (32 - n)))

def not32 (x : Nat) : Nat := 0xffffffff ^^^ mod32 x

def smallSigma0 (x : Nat) : Nat := (rotr32 x 7) ^^^ (rotr32 x 18) ^^^ (x >>> 3)

def smallSigma1 (x : Nat) : Nat := (rotr32 x 17) ^^^ (rotr32 x 19) ^^^ (x >>> 10)

def bigSigma0 (x : Nat) : Nat := (rotr32 x 2) ^^^ (rotr32 x 13) ^^^ (rotr32 x 22)

def bigSigma1 (x : Nat) : Nat := (rotr32 x 6) ^^^ (rotr32 x 11) ^^^ (rotr32 x 25)

def ch (e f g : Nat) : Nat := (e &&& f) ^^^ ((not32 e) &&& g)

def maj (a b c : Nat) : Nat := (a &&& b) ^^^ (a &&& c) ^^^ (b &&& c)

def K64 : List Nat :=
  [1116352408, 1899447441, 3049323471, 3921009573, 961987163, 1508970993,
   2453635748, 2870763221, 3624381080, 310598401, 607225278, 1426881987,
   1925078388, 2162078206, 2614888103, 3248222580, 3835390401, 4022224774,
   264347078, 604807628, 770255983, 1249150122, 1555081692, 1996064986,
   2554220882, 2821834349, 2952996808, 3210313671, 3336571891, 3584528711,
   113926993, 338241895, 666307205, 773529912, 1294757372, 1396182291,
   1695183700, 1986661051, 2177026350, 2456956037, 2730485921, 2820302411,
   3259730800, 3345764771, 3516065817, 3600352804, 4094571909, 275423344,
   430227734, 506948616, 659060556, 883997877, 958139571, 1322822218,
   1537002063, 1747873779, 1955562222, 2024104815, 2227730452, 2361852424,
   2428436474, 2756734187, 3204031479, 3329325298]

/-- The eight-word hash state. -/
structure St where
  a : Nat
  b : Nat
  c : Nat
  d : Nat
  e : Nat
  f : Nat
  g : Nat
  h : Nat
deriving DecidableEq

def initSt : St :=
  { a := 1779033703, b := 3144134277, c := 1013904242, d := 2773480762
    e := 1359893119, f := 2600822924, g := 528734635, h := 1541459225 }

/-- Merkle-Damgard padding: append `0x80`, zero bytes up to 56 mod 64,
then the bit length as an 8-byte big-endian integer. -/
def padMessage (msg : List Nat) : List Nat :=
  let bitLen := 8 * msg.length
  let zeros := (120 - ((msg.length + 1) % 64)) % 64
  msg ++ [0x80] ++ List.replicate zeros 0 ++
    [(bitLen >>> 56) % 256, (bitLen >>> 48) % 256, (bitLen >>> 40) % 256,
     (bitLen >>> 32) % 256, (bitLen >>> 24) % 256, (bitLen >>> 16) % 256,
     (bitLen >>> 8) % 256, bitLen % 256]

/-- Split a byte list into 64-byte blocks. -/
def chunks64 (l : List Nat) : List (List Nat) :=
  if hl : l = [] then []
  else
    l.take 64 :: chunks64 (l.drop 64)
termination_by l.length
decreasing_by
  simp only [List.length_drop]
  have : l.length ≠ 0 := fun h => hl (List.length_eq_zero.mp h)
  omega

/-- Big-endian 4-byte groups to 32-bit words (bytes are `Uint8Array`
entries, hence reduced modulo 256). -/
def bytesToWords : List Nat → List Nat
  | b0 :: b1 :: b2 :: b3 :: rest =>
      (((b0 % 256) <<< 24) + ((b1 % 256) <<< 16) + ((b2 % 256) <<< 8) + (b3 % 256))
        :: bytesToWords rest
  | _ => []

/-- Extend the 16-word block to the 64-word message schedule. -/
def extendSchedule (w : List Nat) : Nat → List Nat
  | 0 => w
  | n + 1 =>
      let t := w.length
      let next := mod32 (smallSigma1 (w.getD (t - 2) 0) + w.getD (t - 7) 0 +
        smallSigma0 (w.getD (t - 15) 0) + w.getD (t - 16) 0)
      extendSchedule (w ++ [next]) n

def round (s : St) (k : Nat) (w : Nat) : St :=
  let t1 := mod32 (s.h + bigSigma1 s.e + ch s.e s.f s.g + k + w)
  let t2 := mod32 (bigSigma0 s.a + maj s.a s.b s.c)
  { a := mod32 (t1 + t2), b := s.a, c := s.b, d := s.c
    e := mod32 (s.d + t1), f := s.e, g := s.f, h := s.g }

def processChunk (st : St) (chunk : List Nat) : St :=
  let ws := extendSchedule (bytesToWords chunk) 48
  let s := (K64.zip ws).foldl (fun s kw => round s kw.1 kw.2) st
  { a := mod32 (st.a + s.a), b := mod32 (st.b + s.b), c := mod32 (st.c + s.c)
    d := mod32 (st.d + s.d), e := mod32 (st.e + s.e), f := mod32 (st.f + s.f)
    g := mod32 (st.g + s.g), h := mod32 (st.h + s.h) }

def wordBytes (w : Nat) : List Nat :=
  [(w >>> 24) % 256, (w >>> 16) % 256, (w >>> 8) % 256, w % 256]

/-- SHA-256 digest of a byte list, as the list of 32 digest bytes. -/
def sha256 (msg : List Nat) : List Nat :=
  let s := (chunks64 (padMessage msg)).foldl processChunk initSt
  wordBytes s.a ++ wordBytes s.b ++ wordBytes s.c ++ wordBytes s.d ++
    wordBytes s.e ++ wordBytes s.f ++ wordBytes s.g ++ wordBytes s.h

theorem sha256_length (msg : List Nat) : (sha256 msg).length = 32 := by
  simp [sha256, wordBytes]

end Sha256

/- ======================================================================
   ProofGenerator (src/lib/sdk/ProofGenerator.ts)
   ====================================================================== -/

/-- The `(a, b, c)` Groth16-shaped components of the mock prover. -/
structure ProofComponents where
  a : List String
  b : List (List String)
  c : List String
deriving DecidableEq

/-- `ZKProof` from the SDK types. -/
structure ZKProof where
  proofHash : String
  publicInputs : List String
  proof : ProofComponents
deriving DecidableEq

namespace ProofGenerator

/-- The lowercase hex digit for a nibble: `0`-`9` then `a`-`f`. -/
def hexChar (n : Nat) : Char :=
  if n < 10 then Char.ofNat (48 + n)
  else if n < 16 then Char.ofNat (87 + n)
  else Char.ofNat 48

/-- Two lowercase hex characters per byte (noble-hashes `bytesToHex`). -/
def bytesToHexChars : List Nat → List Char
  | [] => []
  | b :: bs => hexChar ((b >>> 4) % 16) :: hexChar (b % 16) :: bytesToHexChars bs

def bytesToHex (bs : List Nat) : String := String.mk (bytesToHexChars bs)

theorem bytesToHexChars_length (bs : List Nat) :
    (bytesToHexChars bs).length = 2 * bs.length := by
  induction bs with
  | nil => simp [bytesToHexChars]
  | cons b bs ih => simp [bytesToHexChars, ih]; omega

/-- `TextEncoder().encode`: UTF-8 bytes.  All strings serialised by the
proof generator are ASCII (hex digits, JSON punctuation, decimal
numbers, bech32 addresses), where UTF-8 is the code-point value. -/
def strBytes (s : String) : List Nat := s.data.map (fun c => c.toNat)

def jsonQuote (s : String) : String := "\"" ++ s ++ "\""

def jsonArr (l : List String) : String :=
  "[" ++ String.intercalate "," (l.map jsonQuote) ++ "]"

def jsonArr2 (l : List (List String)) : String :=
  "[" ++ String.intercalate "," (l.map jsonArr) ++ "]"

/-- `JSON.stringify(proof)` for the `{a, b, c}` component record. -/
def jsonStringifyProof (p : ProofComponents) : String :=
  "\x7b\"a\":" ++ jsonArr p.a ++ ",\"b\":" ++ jsonArr2 p.b ++
    ",\"c\":" ++ jsonArr p.c ++ "\x7d"

/-- `ProofGenerator.hashProof`: SHA-256 of the serialised components,
rendered as hex. -/
def hashProof (p : ProofComponents) : String :=
  bytesToHex (Sha256.sha256 (strBytes (jsonStringifyProof p)))

/-- `ProofGenerator.createPublicInputs`. -/
def createPublicInputs (assessment : CreditAssessment) : List String :=
  [toString assessment.finalScore, toString assessment.timestamp, assessment.address]

/-- `ProofGenerator.generateRandomHex` applied to the 32 bytes drawn
from `crypto.getRandomValues`. -/
def generateRandomHex (bytes : List Nat) : String := bytesToHex bytes

/-- `ProofGenerator.generateProof`.  `entropy n` models the byte vector
produced by the n-th `crypto.getRandomValues` call: draw 0 is the
witness secret (`createWitness`), draws 1-8 are the mock prover
component strings, in source order `a`, `b`, `c`.  The mock prover
output does not depend on the witness, and the simulated computation
delay has no observable effect on the returned value. -/
def generateProof (assessment : CreditAssessment) (entropy : Nat → List Nat) : ZKProof :=
  let proof : ProofComponents :=
    { a := [generateRandomHex (entropy 1), generateRandomHex (entropy 2)]
      b := [[generateRandomHex (entropy 3), generateRandomHex (entropy 4)],
            [generateRandomHex (entropy 5), generateRandomHex (entropy 6)]]
      c := [generateRandomHex (entropy 7), generateRandomHex (entropy 8)] }
  { proofHash := hashProof proof
    publicInputs := createPublicInputs assessment
    proof := proof }

/-- `ProofGenerator.verifyProofLocally`.  The source also tests
`!proof.proof || !proof.proof.a || !proof.proof.b || !proof.proof.c`;
in the typed embedding those components always exist, and in JavaScript
an array value is always truthy, so that test never rejects and is
elided here. -/
def verifyProofLocally (p : ZKProof) : Bool :=
  if p.proofHash = "" ∨ p.proofHash.length = 0 then false
  else if p.publicInputs.length = 0 then false
  else true

end ProofGenerator

/- ======================================================================
   BlockchainAdapter (src/lib/sdk/BlockchainAdapter.ts)
   ====================================================================== -/

/-- Transaction status from the SDK types. -/
inductive TxStatus where
  | pending
  | confirmed
  | failed
deriving DecidableEq

/-- `AleoTransaction` from the SDK types. -/
structure AleoTransaction where
  id : String
  status : TxStatus
  blockHeight : Option Int
  timestamp : Option Int
deriving DecidableEq

/-- `CreditRecord` from the SDK types. -/
structure CreditRecord where
  owner : String
  score : Int
  threshold : Int
  issuedBlock : Int
  issuedAt : Int
deriving DecidableEq

/-- `CreditIssuanceResult` from the SDK types. -/
structure CreditIssuanceResult where
  success : Bool
  transactionId : String
  creditRecord : Option CreditRecord
  error : Option String
deriving DecidableEq

/-- Environment oracle for the adapter: outcomes of the network calls
and of the randomness sources.  `polls n` is the response of the n-th
HTTP status query (`none` = the HTTP call failed); `broadcastTxId` is
the id the broadcast endpoint returned (`none` = broadcast HTTP call
failed, after the 3 retries the HTTP client performs internally);
`mockTxId`, `mockHeight` and `mockScore` are the values drawn from
`crypto.getRandomValues` / `Math.random` for the development fallbacks;
`now` models `Date.now()`. -/
structure ChainEnv where
  polls : Nat → Option AleoTransaction
  broadcastTxId : Option String
  mockTxId : String
  mockHeight : Nat → Int
  mockScore : Int
  now : Int

namespace BlockchainAdapter

/-- `BlockchainAdapter.queryTransaction`: on an HTTP error it does not
propagate the failure but fabricates a confirmed mock transaction. -/
def queryTransaction (env : ChainEnv) (txId : String) (n : Nat) : AleoTransaction :=
  match env.polls n with
  | some tx => tx
  | none =>
      { id := txId, status := TxStatus.confirmed
        blockHeight := some (env.mockHeight n), timestamp := some env.now }

/-- The `while (attempts < maxAttempts)` loop of
`BlockchainAdapter.waitForConfirmation`, instrumented with the number
of status queries issued and the accumulated sleep milliseconds.  The
loop counter is split into `attempts` (counting up from 0, exactly as
in the source, and used by the `attempts >= maxAttempts - 1` test) and
the structurally decreasing `fuel = maxAttempts - attempts`, so the
`while (attempts < maxAttempts)` guard is `fuel > 0`.  The
`TransactionError` thrown on a `failed` status is raised inside the
`try` block, so it lands in the same iteration's `catch`, which either
rethrows the timeout error (on the last attempt) or sleeps and keeps
polling. -/
def waitLoop (env : ChainEnv) (txId : String) :
    Nat → Nat → Nat → Nat → Except String AleoTransaction × Nat × Nat
  | _attempts, polls, sleepMs, 0 =>
      (Except.error "Transaction confirmation timeout", polls, sleepMs)
  | attempts, polls, sleepMs, fuel + 1 =>
      let tx := queryTransaction env txId attempts
      if tx.status = TxStatus.confirmed then (Except.ok tx, polls + 1, sleepMs)
      else if tx.status = TxStatus.failed then
        -- the thrown on-chain-failure error is caught by the loop's own catch
        if attempts ≥ TX_POLLING.MAX_ATTEMPTS - 1 then
          (Except.error "Transaction confirmation timeout", polls + 1, sleepMs)
        else
          waitLoop env txId (attempts + 1) (polls + 1)
            (sleepMs + TX_POLLING.INTERVAL) fuel
      else
        waitLoop env txId (attempts + 1) (polls + 1)
          (sleepMs + TX_POLLING.INTERVAL) fuel

/-- `BlockchainAdapter.waitForConfirmation`, with instrumentation. -/
def waitForConfirmationAux (env : ChainEnv) (txId : String) :
    Except String AleoTransaction × Nat × Nat :=
  waitLoop env txId 0 0 0 TX_POLLING.MAX_ATTEMPTS

/-- The value/error behaviour of `waitForConfirmation` alone. -/
def waitForConfirmation (env : ChainEnv) (txId : String) :
    Except String AleoTransaction :=
  (waitForConfirmationAux env txId).1

/-- Number of status queries `waitForConfirmation` issues. -/
def confirmationPolls (env : ChainEnv) (txId : String) : Nat :=
  (waitForConfirmationAux env txId).2.1

/-- Total milliseconds `waitForConfirmation` sleeps. -/
def confirmationSleepMs (env : ChainEnv) (txId : String) : Nat :=
  (waitForConfirmationAux env txId).2.2

/-- `BlockchainAdapter.mockSign`. -/
def mockSign (message : String) (_privateKey : String) : String :=
  "sig_" ++ (message.take 16)

/-- The transaction record built by `BlockchainAdapter.buildTransaction`. -/
structure TxRequest where
  program : String
  function : String
  inputs : List String
  caller : String
  signature : String
  fee : String
deriving DecidableEq

/-- `BlockchainAdapter.buildTransaction` (contract address as
configured). -/
def buildTransaction (contractAddress : String) (proof : ZKProof)
    (userAddress privateKey : String) : TxRequest :=
  { program := contractAddress
    function := "verify_and_issue"
    inputs := [proof.proofHash, "300"]
    caller := userAddress
    signature := mockSign proof.proofHash privateKey
    fee := "1000000" }

/-- `BlockchainAdapter.broadcastTransaction`: the HTTP failure is
caught and replaced by a generated mock transaction id, so this never
raises an error to its caller. -/
def broadcastTransaction (env : ChainEnv) (_transaction : TxRequest) : String :=
  match env.broadcastTxId with
  | some txId => txId
  | none => env.mockTxId

/-- `BlockchainAdapter.extractCreditRecord`: builds a mock record;
`transaction.blockHeight || 0` and `transaction.timestamp || Date.now()`
are JavaScript falsy-defaulting reads. -/
def extractCreditRecord (env : ChainEnv) (transaction : AleoTransaction)
    (userAddress : String) : CreditRecord :=
  { owner := userAddress
    score := 300 + env.mockScore
    threshold := 300
    issuedBlock := match transaction.blockHeight with
      | some h => h
      | none => 0
    issuedAt := match transaction.timestamp with
      | some t => if t = 0 then env.now else t
      | none => env.now }

/-- `BlockchainAdapter.submitProof`: build, broadcast, wait for
confirmation, extract the record; the surrounding `try` turns any
error raised by the confirmation wait into a `success: false` result. -/
def submitProof (env : ChainEnv) (contractAddress : String) (proof : ZKProof)
    (userAddress privateKey : String) : CreditIssuanceResult :=
  let transaction := buildTransaction contractAddress proof userAddress privateKey
  let txId := broadcastTransaction env transaction
  match waitForConfirmation env txId with
  | Except.ok confirmedTx =>
      { success := true
        transactionId := txId
        creditRecord := some (extractCreditRecord env confirmedTx userAddress)
        error := none }
  | Except.error e =>
      { success := false
        transactionId := ""
        creditRecord := none
        error := some e }

end BlockchainAdapter

/- ======================================================================
   DataAggregator (src/unnamed/part_005)
   ====================================================================== -/

/-- JavaScript 32-bit signed truncation (`hash & hash` after `<<`),
result in `[-2 ^ 31, 2 ^ 31)`. -/
def to32 (n : Int) : Int := (n + 2 ^ 31) % 2 ^ 32 - 2 ^ 31

namespace DataAggregator

/-- `DataAggregator.hashAddress`:
`hash = (hash << 5) - hash + charCode; hash = hash & hash` per
character (each step truncated to a signed 32-bit integer), then
`Math.abs`. -/
def hashAddress (s : String) : Int :=
  |s.data.foldl (fun h c => to32 (to32 (h * 32) - h + c.toNat)) 0|

def getMockTransactionCount (address : String) : Int := hashAddress address % 100

def getMockWalletAge (address : String) : Int := hashAddress address % 36 + 1

def getMockDeFiScore (address : String) : Int := hashAddress address % 101

def getMockRepaymentRate (address : String) : Int := hashAddress address % 50 + 50

def getMockBalance (address : String) : Int := hashAddress address % 100000 + 1000

/-- `DataAggregator.getMockMetrics` (`now` models `Date.now()`). -/
def getMockMetrics (address : String) (now : Int) : WalletMetrics :=
  { address := address
    transactionCount := getMockTransactionCount address
    walletAgeMonths := getMockWalletAge address
    defiScore := getMockDeFiScore address
    repaymentRate := getMockRepaymentRate address
    tokenBalance := getMockBalance address
    lastTransactionDate := now - hashAddress address % (1000 * 60 * 60 * 24 * 30) }

/-- The LRU cache: `(key, value, age)` triples, most recently used
first.  `age` is the insertion or last-get time (`updateAgeOnGet`). -/
abbrev Cache := List (String × WalletMetrics × Int)

/-- Rebuild the cache with `(k, m, now)` as the most recent entry. -/
def cacheInsert (c : Cache) (k : String) (m : WalletMetrics) (now : Int) : Cache :=
  (k, m, now) :: c.filter (fun e => !(e.1 == k))

/-- `cache.get`: a hit requires the entry to be younger than the TTL;
on a hit the entry's recency and age are refreshed (`updateAgeOnGet`). -/
def cacheGet (c : Cache) (k : String) (now : Int) :
    Option (WalletMetrics × Cache) :=
  match c.find? (fun e => e.1 == k) with
  | none => none
  | some (_, m, t) =>
      if now - t < CACHE_CONFIG.METRICS_TTL then some (m, cacheInsert c k m now)
      else none

/-- `cache.set`: insert as most recent, bounded by `MAX_CACHE_SIZE`. -/
def cacheSet (c : Cache) (k : String) (m : WalletMetrics) (now : Int) : Cache :=
  (cacheInsert c k m now).take CACHE_CONFIG.MAX_CACHE_SIZE

/-- `DataAggregator.clearCache`. -/
def clearCache (c : Cache) (address : String) : Cache :=
  c.filter (fun e => !(e.1 == address))

/-- `DataAggregator.clearAllCache`. -/
def clearAllCache (_c : Cache) : Cache := []

/-- Oracle for the five per-field RPC queries at a given fetch time:
`none` means the HTTP call failed (each query then falls back to its
per-field mock value).  `firstSeenResp` carries the optional
`firstSeen` field of the account-info response. -/
structure RpcEnv where
  txCountResp : Int → Option Int
  firstSeenResp : Int → Option (Option Int)
  defiResp : Int → Option Int
  lendingResp : Int → Option Int
  balanceResp : Int → Option Int

/-- `DataAggregator.queryTransactionCount` (`response.count || 0`). -/
def queryTransactionCount (env : RpcEnv) (address : String) (now : Int) : Int :=
  match env.txCountResp now with
  | some count => if count = 0 then 0 else count
  | none => getMockTransactionCount address

/-- `DataAggregator.queryWalletAgeMonths`: months since `firstSeen`
(`Math.floor` division, clamped below at 0). -/
def queryWalletAgeMonths (env : RpcEnv) (address : String) (now : Int) : Int :=
  match env.firstSeenResp now with
  | some firstSeen =>
      match firstSeen with
      | none => 0
      | some fs =>
          if fs = 0 then 0
          else max 0 (Int.fdiv (now - fs) (1000 * 60 * 60 * 24 * 30))
  | none => getMockWalletAge address

/-- `DataAggregator.queryDeFiScore` (`min(100, max(0, score || 0))`). -/
def queryDeFiScore (env : RpcEnv) (address : String) (now : Int) : Int :=
  match env.defiResp now with
  | some score => min 100 (max 0 (if score = 0 then 0 else score))
  | none => getMockDeFiScore address

/-- `DataAggregator.queryRepaymentRate`. -/
def queryRepaymentRate (env : RpcEnv) (address : String) (now : Int) : Int :=
  match env.lendingResp now with
  | some rate => min 100 (max 0 (if rate = 0 then 0 else rate))
  | none => getMockRepaymentRate address

/-- `DataAggregator.queryTokenBalance`. -/
def queryTokenBalance (env : RpcEnv) (address : String) (now : Int) : Int :=
  match env.balanceResp now with
  | some balance => max 0 (if balance = 0 then 0 else balance)
  | none => getMockBalance address

/-- The metrics record assembled from the five parallel queries
(`lastTransactionDate: Date.now()`). -/
def queriedMetrics (env : RpcEnv) (address : String) (now : Int) : WalletMetrics :=
  { address := address
    transactionCount := queryTransactionCount env address now
    walletAgeMonths := queryWalletAgeMonths env address now
    defiScore := queryDeFiScore env address now
    repaymentRate := queryRepaymentRate env address now
    tokenBalance := queryTokenBalance env address now
    lastTransactionDate := now }

/-- `DataAggregator.fetchWalletMetrics`: validate the address, consult
the cache, then either return mock metrics (when `ENABLE_MOCK_DATA`,
without caching) or run the five queries (each with its own fallback,
so the overall fetch cannot fail past the address check) and cache the
result.  Returns the metrics together with the updated cache state. -/
def fetchWalletMetrics (env : RpcEnv) (enableMockData : Bool) (c : Cache)
    (address : String) (now : Int) : Except String (WalletMetrics × Cache) :=
  if address = "" || !(jsStartsWith address "aleo1") then
    Except.error "Invalid Aleo address format"
  else
    match cacheGet c address now with
    | some (cached, c2) => Except.ok (cached, c2)
    | none =>
        if enableMockData then Except.ok (getMockMetrics address now, c)
        else
          let metrics := queriedMetrics env address now
          Except.ok (metrics, cacheSet c address metrics now)

end DataAggregator

/- ======================================================================
   Scoring lemmas
   ====================================================================== -/

namespace ScoringEngine

theorem calculateTransactionBonus_nonneg (c : Int) :
    0 ≤ calculateTransactionBonus c := by
  unfold calculateTransactionBonus SCORING_CONFIG.BONUSES.TRANSACTION_COUNT.threshold
    SCORING_CONFIG.BONUSES.TRANSACTION_COUNT.pointsPer
    SCORING_CONFIG.BONUSES.TRANSACTION_COUNT.maxPoints
  split_ifs <;> omega

theorem calculateAgeBonus_nonneg (m : Int) : 0 ≤ calculateAgeBonus m := by
  unfold calculateAgeBonus SCORING_CONFIG.BONUSES.WALLET_AGE.threshold
    SCORING_CONFIG.BONUSES.WALLET_AGE.pointsPerMonth
    SCORING_CONFIG.BONUSES.WALLET_AGE.maxPoints
  split_ifs <;> omega

theorem calculateDeFiBonus_nonneg (s : Int) : 0 ≤ calculateDeFiBonus s := by
  unfold calculateDeFiBonus SCORING_CONFIG.BONUSES.DEFI_SCORE.threshold
    SCORING_CONFIG.BONUSES.DEFI_SCORE.pointsPer
    SCORING_CONFIG.BONUSES.DEFI_SCORE.maxPoints
  split_ifs <;> omega

theorem calculateRepaymentBonus_nonneg (r : Int) : 0 ≤ calculateRepaymentBonus r := by
  unfold calculateRepaymentBonus SCORING_CONFIG.BONUSES.REPAYMENT_RATE.threshold
    SCORING_CONFIG.BONUSES.REPAYMENT_RATE.pointsPer
    SCORING_CONFIG.BONUSES.REPAYMENT_RATE.maxPoints
  split_ifs <;> omega

theorem calculateTransactionBonus_mono {x y : Int} (h : x ≤ y) :
    calculateTransactionBonus x ≤ calculateTransactionBonus y := by
  unfold calculateTransactionBonus SCORING_CONFIG.BONUSES.TRANSACTION_COUNT.threshold
    SCORING_CONFIG.BONUSES.TRANSACTION_COUNT.pointsPer
    SCORING_CONFIG.BONUSES.TRANSACTION_COUNT.maxPoints
  split_ifs <;> omega

theorem calculateAgeBonus_mono {x y : Int} (h : x ≤ y) :
    calculateAgeBonus x ≤ calculateAgeBonus y := by
  unfold calculateAgeBonus SCORING_CONFIG.BONUSES.WALLET_AGE.threshold
    SCORING_CONFIG.BONUSES.WALLET_AGE.pointsPerMonth
    SCORING_CONFIG.BONUSES.WALLET_AGE.maxPoints
  split_ifs <;> omega

theorem calculateDeFiBonus_mono {x y : Int} (h : x ≤ y) :
    calculateDeFiBonus x ≤ calculateDeFiBonus y := by
  unfold calculateDeFiBonus SCORING_CONFIG.BONUSES.DEFI_SCORE.threshold
    SCORING_CONFIG.BONUSES.DEFI_SCORE.pointsPer
    SCORING_CONFIG.BONUSES.DEFI_SCORE.maxPoints
  split_ifs <;> omega

theorem calculateRepaymentBonus_mono {x y : Int} (h : x ≤ y) :
    calculateRepaymentBonus x ≤ calculateRepaymentBonus y := by
  unfold calculateRepaymentBonus SCORING_CONFIG.BONUSES.REPAYMENT_RATE.threshold
    SCORING_CONFIG.BONUSES.REPAYMENT_RATE.pointsPer
    SCORING_CONFIG.BONUSES.REPAYMENT_RATE.maxPoints
  split_ifs <;> omega

/-- The final score as the capped sum of the four bonuses (definitional). -/
theorem calculateScore_finalScore (m : WalletMetrics) (now : Int) :
    (calculateScore m now).finalScore =
      min 850 (300 + (calculateTransactionBonus m.transactionCount +
        calculateAgeBonus m.walletAgeMonths + calculateDeFiBonus m.defiScore +
        calculateRepaymentBonus m.repaymentRate)) := rfl

theorem min_add_mono {a a2 b b2 c c2 d d2 : Int} (ha : a ≤ a2) (hb : b ≤ b2)
    (hc : c ≤ c2) (hd : d ≤ d2) :
    min 850 (300 + (a + b + c + d)) ≤ min 850 (300 + (a2 + b2 + c2 + d2)) := by
  omega

end ScoringEngine

/-- Example metrics record from the `ScoringEngine.calculateScore`
doc comment, used to instantiate hypothesis-bearing theorems. -/
def validExampleMetrics : WalletMetrics :=
  { address := "aleo1example", transactionCount := 25, walletAgeMonths := 12,
    defiScore := 65, repaymentRate := 95, tokenBalance := 1000,
    lastTransactionDate := 0 }

/- ======================================================================
   Claim theorems
   ====================================================================== -/

/-- C1: for every metrics record whose fields satisfy the declared
ranges, `ScoringEngine.calculateScore` returns
`finalScore = min(850, 300 + sum of the four bonuses)`, and that score
lies in `[300, 850]`. -/
theorem c1_finalScore_bounds (m : WalletMetrics) (now : Int)
    (h : fieldsInRange m = true) :
    (ScoringEngine.calculateScore m now).finalScore =
      min 850 (300 + (ScoringEngine.calculateTransactionBonus m.transactionCount +
        ScoringEngine.calculateAgeBonus m.walletAgeMonths +
        ScoringEngine.calculateDeFiBonus m.defiScore +
        ScoringEngine.calculateRepaymentBonus m.repaymentRate)) ∧
    300 ≤ (ScoringEngine.calculateScore m now).finalScore ∧
    (ScoringEngine.calculateScore m now).finalScore ≤ 850 := by
  have h1 := ScoringEngine.calculateTransactionBonus_nonneg m.transactionCount
  have h2 := ScoringEngine.calculateAgeBonus_nonneg m.walletAgeMonths
  have h3 := ScoringEngine.calculateDeFiBonus_nonneg m.defiScore
  have h4 := ScoringEngine.calculateRepaymentBonus_nonneg m.repaymentRate
  refine ⟨rfl, ?_, ?_⟩ <;>
    rw [ScoringEngine.calculateScore_finalScore] <;> omega

/-- C1 witness: the hypothesis and conclusion at the doc-comment
example metrics. -/
theorem c1_finalScore_bounds_witness :
    fieldsInRange validExampleMetrics = true ∧
    ((ScoringEngine.calculateScore validExampleMetrics 0).finalScore =
      min 850 (300 + (ScoringEngine.calculateTransactionBonus validExampleMetrics.transactionCount +
        ScoringEngine.calculateAgeBonus validExampleMetrics.walletAgeMonths +
        ScoringEngine.calculateDeFiBonus validExampleMetrics.defiScore +
        ScoringEngine.calculateRepaymentBonus validExampleMetrics.repaymentRate)) ∧
    300 ≤ (ScoringEngine.calculateScore validExampleMetrics 0).finalScore ∧
    (ScoringEngine.calculateScore validExampleMetrics 0).finalScore ≤ 850) :=
  ⟨by decide, c1_finalScore_bounds validExampleMetrics 0 (by decide)⟩

/-- C2: for every score in `[300, 850]`, `ScoringEngine.getRiskLevel`
classifies it with the fixed breakpoints: up to 499 high, 500 to 749
medium, 750 and above low. -/
theorem c2_riskTier_breakpoints (s : Int) (_h1 : 300 ≤ s) (_h2 : s ≤ 850) :
    ScoringEngine.getRiskLevel s =
      (if s ≤ 499 then RiskLevel.high
       else if s ≤ 749 then RiskLevel.medium
       else RiskLevel.low) := by
  unfold ScoringEngine.getRiskLevel RISK_LEVELS.LOW.minScore RISK_LEVELS.MEDIUM.minScore
  split_ifs <;> first | rfl | omega

/-- C2 witness: the boundary scores 499, 500, 749, 750. -/
theorem c2_riskTier_breakpoints_witness :
    ScoringEngine.getRiskLevel 499 = RiskLevel.high ∧
    ScoringEngine.getRiskLevel 500 = RiskLevel.medium ∧
    ScoringEngine.getRiskLevel 749 = RiskLevel.medium ∧
    ScoringEngine.getRiskLevel 750 = RiskLevel.low :=
  ⟨by simpa using c2_riskTier_breakpoints 499 (by norm_num) (by norm_num),
   by simpa using c2_riskTier_breakpoints 500 (by norm_num) (by norm_num),
   by simpa using c2_riskTier_breakpoints 749 (by norm_num) (by norm_num),
   by simpa using c2_riskTier_breakpoints 750 (by norm_num) (by norm_num)⟩

/-- Out-of-range metrics: a negative transaction count. -/
def invalidMetricsExample : WalletMetrics :=
  { address := "aleo1invalid", transactionCount := -5, walletAgeMonths := 5,
    defiScore := 50, repaymentRate := 80, tokenBalance := 1000,
    lastTransactionDate := 0 }

/-- C3 counterexample: `ScoringEngine.calculateScore` performs no
validation.  On a metrics record with a negative transaction count
(which `validateMetrics` would reject) it does not fail: it produces a
full assessment, silently treating the out-of-range value as
below-threshold. -/
theorem c3_counterexample :
    ScoringEngine.validateMetrics invalidMetricsExample =
      Except.error "Transaction count cannot be negative" ∧
    ScoringEngine.calculateScore invalidMetricsExample 0 =
      { address := "aleo1invalid", metrics := invalidMetricsExample,
        baseScore := 300, bonusPoints := 150, finalScore := 450,
        riskLevel := RiskLevel.high, timestamp := 0 } := by
  constructor
  · rfl
  · rfl

/-- C3 amended: the range validation lives in
`ScoringEngine.validateMetrics`, which the SDK flow
(`CreditScoreSDK.fetchWalletMetrics`) runs on the fetched metrics
before any scoring happens; at that level an assessment is produced
exactly when the address is well formed and every field is in its
declared range.  `calculateScore` itself neither validates nor
clamps. -/
theorem c3_amended (m : WalletMetrics) (now : Int) :
    (∃ a, CreditScoreSDK.issueFlowAssessment m now = Except.ok a) ↔
      metricsValid m = true := by
  unfold CreditScoreSDK.issueFlowAssessment CreditScoreSDK.fetchWalletMetricsWith
    ScoringEngine.validateMetrics metricsValid fieldsInRange
  split_ifs with h1 h2 h3 h4 h5 h6 <;> simp_all [Except.map]
  all_goals
    first
    | (intros; omega)
    | (intro hsw
       exfalso
       rcases h1 with h1 | h1 <;> rw [h1] at hsw <;> exact absurd hsw (by decide))

/-- C4: for valid metrics, `finalScore` is monotonically non-decreasing
in each of the four scored fields independently (raising any one field
while the others stay fixed never lowers the score), and below-threshold
inputs contribute a bonus of exactly 0, never negative. -/
theorem c4_finalScore_monotone (m : WalletMetrics) (now : Int)
    (hv : fieldsInRange m = true) (x : Int) :
    (m.transactionCount ≤ x →
      (ScoringEngine.calculateScore m now).finalScore ≤
        (ScoringEngine.calculateScore { m with transactionCount := x } now).finalScore) ∧
    (m.walletAgeMonths ≤ x →
      (ScoringEngine.calculateScore m now).finalScore ≤
        (ScoringEngine.calculateScore { m with walletAgeMonths := x } now).finalScore) ∧
    (m.defiScore ≤ x →
      (ScoringEngine.calculateScore m now).finalScore ≤
        (ScoringEngine.calculateScore { m with defiScore := x } now).finalScore) ∧
    (m.repaymentRate ≤ x →
      (ScoringEngine.calculateScore m now).finalScore ≤
        (ScoringEngine.calculateScore { m with repaymentRate := x } now).finalScore) ∧
    (m.transactionCount < SCORING_CONFIG.BONUSES.TRANSACTION_COUNT.threshold →
      ScoringEngine.calculateTransactionBonus m.transactionCount = 0) ∧
    (m.walletAgeMonths < SCORING_CONFIG.BONUSES.WALLET_AGE.threshold →
      ScoringEngine.calculateAgeBonus m.walletAgeMonths = 0) ∧
    (m.defiScore < SCORING_CONFIG.BONUSES.DEFI_SCORE.threshold →
      ScoringEngine.calculateDeFiBonus m.defiScore = 0) ∧
    (m.repaymentRate < SCORING_CONFIG.BONUSES.REPAYMENT_RATE.threshold →
      ScoringEngine.calculateRepaymentBonus m.repaymentRate = 0) ∧
    0 ≤ ScoringEngine.calculateTransactionBonus m.transactionCount ∧
    0 ≤ ScoringEngine.calculateAgeBonus m.walletAgeMonths ∧
    0 ≤ ScoringEngine.calculateDeFiBonus m.defiScore ∧
    0 ≤ ScoringEngine.calculateRepaymentBonus m.repaymentRate :=
  ⟨fun h => ScoringEngine.min_add_mono (ScoringEngine.calculateTransactionBonus_mono h)
      le_rfl le_rfl le_rfl,
   fun h => ScoringEngine.min_add_mono le_rfl
      (ScoringEngine.calculateAgeBonus_mono h) le_rfl le_rfl,
   fun h => ScoringEngine.min_add_mono le_rfl le_rfl
      (ScoringEngine.calculateDeFiBonus_mono h) le_rfl,
   fun h => ScoringEngine.min_add_mono le_rfl le_rfl le_rfl
      (ScoringEngine.calculateRepaymentBonus_mono h),
   fun h => by unfold ScoringEngine.calculateTransactionBonus; rw [if_pos h],
   fun h => by unfold ScoringEngine.calculateAgeBonus; rw [if_pos h],
   fun h => by unfold ScoringEngine.calculateDeFiBonus; rw [if_pos h],
   fun h => by unfold ScoringEngine.calculateRepaymentBonus; rw [if_pos h],
   ScoringEngine.calculateTransactionBonus_nonneg m.transactionCount,
   ScoringEngine.calculateAgeBonus_nonneg m.walletAgeMonths,
   ScoringEngine.calculateDeFiBonus_nonneg m.defiScore,
   ScoringEngine.calculateRepaymentBonus_nonneg m.repaymentRate⟩

/-- C4 witness: raising the transaction count of the example metrics
from 25 to 30 does not lower the final score. -/
theorem c4_finalScore_monotone_witness :
    fieldsInRange validExampleMetrics = true ∧
    validExampleMetrics.transactionCount ≤ 30 ∧
    (ScoringEngine.calculateScore validExampleMetrics 0).finalScore ≤
      (ScoringEngine.calculateScore
        { validExampleMetrics with transactionCount := 30 } 0).finalScore :=
  ⟨by decide, by decide,
   (c4_finalScore_monotone validExampleMetrics 0 (by decide) 30).1 (by decide)⟩

/-- The saturating metrics of the spec example (and of the repo unit
test `should return max score (850) for perfect wallet`). -/
def saturatingMetrics : WalletMetrics :=
  { address := "aleo1perfect", transactionCount := 50, walletAgeMonths := 24,
    defiScore := 80, repaymentRate := 100, tokenBalance := 100000,
    lastTransactionDate := 0 }

/-- C5 counterexample: at the saturating input the assessment's risk
tier is not low (the final score is 650, below the 750 breakpoint). -/
theorem c5_counterexample :
    (ScoringEngine.calculateScore saturatingMetrics 0).riskLevel ≠ RiskLevel.low := by
  decide

/-- C5 amended: at the saturating input the per-factor bonuses are 100,
100, 100 and 50 (total 350), the final score is
`min 850 (300 + 350) = 650` with no further capping, and the risk tier
is medium. -/
theorem c5_amended :
    ScoringEngine.calculateTransactionBonus saturatingMetrics.transactionCount = 100 ∧
    ScoringEngine.calculateAgeBonus saturatingMetrics.walletAgeMonths = 100 ∧
    ScoringEngine.calculateDeFiBonus saturatingMetrics.defiScore = 100 ∧
    ScoringEngine.calculateRepaymentBonus saturatingMetrics.repaymentRate = 50 ∧
    (ScoringEngine.calculateScore saturatingMetrics 0).bonusPoints = 350 ∧
    (ScoringEngine.calculateScore saturatingMetrics 0).finalScore = min 850 (300 + 350) ∧
    (ScoringEngine.calculateScore saturatingMetrics 0).finalScore = 650 ∧
    (ScoringEngine.calculateScore saturatingMetrics 0).riskLevel = RiskLevel.medium := by
  decide

/- ======================================================================
   Confirmation-polling lemmas
   ====================================================================== -/

namespace BlockchainAdapter

theorem waitLoop_polls_le (env : ChainEnv) (txId : String) :
    ∀ fuel attempts polls sleep,
      (waitLoop env txId attempts polls sleep fuel).2.1 ≤ polls + fuel := by
  intro fuel
  induction fuel with
  | zero => intro a p s; simp [waitLoop]
  | succ n ih =>
    intro a p s
    simp only [waitLoop]
    split_ifs
    · simp
    · simp
    · exact le_trans (ih (a + 1) (p + 1) (s + TX_POLLING.INTERVAL)) (by omega)
    · exact le_trans (ih (a + 1) (p + 1) (s + TX_POLLING.INTERVAL)) (by omega)

theorem waitLoop_polls_mono (env : ChainEnv) (txId : String) :
    ∀ fuel attempts polls sleep,
      polls ≤ (waitLoop env txId attempts polls sleep fuel).2.1 := by
  intro fuel
  induction fuel with
  | zero => intro a p s; simp [waitLoop]
  | succ n ih =>
    intro a p s
    simp only [waitLoop]
    split_ifs
    · simp
    · simp
    · exact le_trans (by omega) (ih (a + 1) (p + 1) (s + TX_POLLING.INTERVAL))
    · exact le_trans (by omega) (ih (a + 1) (p + 1) (s + TX_POLLING.INTERVAL))

/-- A trace in which every status query observes `pending` exhausts the
whole attempt budget and ends in the timeout error. -/
theorem waitLoop_pending (env : ChainEnv) (txId : String)
    (hp : ∀ n, (queryTransaction env txId n).status = TxStatus.pending) :
    ∀ fuel attempts polls sleep,
      waitLoop env txId attempts polls sleep fuel =
        (Except.error "Transaction confirmation timeout", polls + fuel,
          sleep + fuel * TX_POLLING.INTERVAL) := by
  intro fuel
  induction fuel with
  | zero => intro a p s; simp [waitLoop]
  | succ n ih =>
    intro a p s
    simp only [waitLoop, hp]
    rw [ih (a + 1) (p + 1) (s + TX_POLLING.INTERVAL)]
    simp [TX_POLLING.INTERVAL]
    try omega

theorem waitLoop_polls_ge1 (env : ChainEnv) (txId : String) :
    ∀ fuel a p s, 0 < fuel → p + 1 ≤ (waitLoop env txId a p s fuel).2.1 := by
  intro fuel
  cases fuel with
  | zero => intro a p s hf; omega
  | succ n =>
    intro a p s _hf
    simp only [waitLoop]
    split_ifs
    · simp
    · simp
    · exact waitLoop_polls_mono env txId n (a + 1) (p + 1) (s + TX_POLLING.INTERVAL)
    · exact waitLoop_polls_mono env txId n (a + 1) (p + 1) (s + TX_POLLING.INTERVAL)

theorem confirmationPolls_pos (env : ChainEnv) (txId : String) :
    1 ≤ confirmationPolls env txId := by
  unfold confirmationPolls waitForConfirmationAux
  exact waitLoop_polls_ge1 env txId TX_POLLING.MAX_ATTEMPTS 0 0 0 (by decide)

end BlockchainAdapter

/-- A trace in which every status poll observes the transaction with
status `failed`. -/
def allFailedEnv : ChainEnv :=
  { polls := fun _ => some
      { id := "at1failed", status := TxStatus.failed,
        blockHeight := none, timestamp := none }
    broadcastTxId := some "at1failed"
    mockTxId := "at1mock"
    mockHeight := fun _ => 0
    mockScore := 0
    now := 0 }

/-- C6: evaluation at the failing trace.  When every poll observes the
`failed` status, `waitForConfirmation` does not surface the
`Transaction failed on-chain` error: the throw lands in the loop's own
catch, is discarded, polling continues for the full 20-attempt budget,
and the run ends in the confirmation-timeout error instead. -/
theorem c6_failed_status_code_bug :
    BlockchainAdapter.waitForConfirmation allFailedEnv "at1failed" =
      Except.error "Transaction confirmation timeout" ∧
    BlockchainAdapter.waitForConfirmation allFailedEnv "at1failed" ≠
      Except.error "Transaction failed on-chain" ∧
    BlockchainAdapter.confirmationPolls allFailedEnv "at1failed" = 20 := by
  refine ⟨rfl, ?_, rfl⟩
  intro h
  rw [show BlockchainAdapter.waitForConfirmation allFailedEnv "at1failed" =
    Except.error "Transaction confirmation timeout" from rfl] at h
  injection h with h2
  exact absurd h2 (by decide)

/-- A proof object for submission examples. -/
def exampleProof : ZKProof :=
  { proofHash := "ab12cd34", publicInputs := ["650", "0", "aleo1user"],
    proof := { a := ["01", "02"], b := [["03", "04"], ["05", "06"]], c := ["07", "08"] } }

/-- An environment whose broadcast HTTP call fails and whose status
endpoint reports the polled transaction confirmed. -/
def broadcastFailEnv : ChainEnv :=
  { polls := fun _ => some
      { id := "at1queried", status := TxStatus.confirmed,
        blockHeight := some 12345, timestamp := some 999 }
    broadcastTxId := none
    mockTxId := "at1deadbeef"
    mockHeight := fun _ => 0
    mockScore := 50
    now := 777 }

/-- C7 counterexample: with the broadcast call failing, `submitProof`
does not return a submission error and does not stop before
confirmation polling: `broadcastTransaction` swallows the failure,
substitutes the generated mock id, and the submission completes with
`success := true`. -/
theorem c7_counterexample :
    BlockchainAdapter.submitProof broadcastFailEnv "credit_score.aleo"
        exampleProof "aleo1user" "APrivateKey1test" =
      { success := true
        transactionId := "at1deadbeef"
        creditRecord := some
          { owner := "aleo1user", score := 350, threshold := 300,
            issuedBlock := 12345, issuedAt := 999 }
        error := none } := by
  rfl

/-- C7 amended: when the broadcast HTTP call fails (after the HTTP
client's own 3 retries), `broadcastTransaction` returns the generated
mock transaction id instead of an error; `submitProof` then proceeds to
confirmation polling with that id (at least one status query is
issued), and the final result is whatever the confirmation wait
produces — not a broadcast error. -/
theorem c7_amended (env : ChainEnv) (contractAddress : String) (proof : ZKProof)
    (userAddress privateKey : String) (h : env.broadcastTxId = none) :
    BlockchainAdapter.broadcastTransaction env
      (BlockchainAdapter.buildTransaction contractAddress proof userAddress privateKey) =
        env.mockTxId ∧
    BlockchainAdapter.submitProof env contractAddress proof userAddress privateKey =
      (match BlockchainAdapter.waitForConfirmation env env.mockTxId with
       | Except.ok confirmedTx =>
           { success := true
             transactionId := env.mockTxId
             creditRecord := some
               (BlockchainAdapter.extractCreditRecord env confirmedTx userAddress)
             error := none }
       | Except.error e =>
           { success := false, transactionId := "", creditRecord := none,
             error := some e }) ∧
    1 ≤ BlockchainAdapter.confirmationPolls env env.mockTxId := by
  have hb : BlockchainAdapter.broadcastTransaction env
      (BlockchainAdapter.buildTransaction contractAddress proof userAddress privateKey) =
        env.mockTxId := by
    unfold BlockchainAdapter.broadcastTransaction
    rw [h]
  refine ⟨hb, ?_, BlockchainAdapter.confirmationPolls_pos env env.mockTxId⟩
  simp only [BlockchainAdapter.submitProof, hb]

/-- C7 witness: the amended statement at the broadcast-failure
environment. -/
theorem c7_amended_witness :
    broadcastFailEnv.broadcastTxId = none ∧
    (BlockchainAdapter.broadcastTransaction broadcastFailEnv
      (BlockchainAdapter.buildTransaction "credit_score.aleo" exampleProof
        "aleo1user" "APrivateKey1test") = broadcastFailEnv.mockTxId ∧
    BlockchainAdapter.submitProof broadcastFailEnv "credit_score.aleo"
        exampleProof "aleo1user" "APrivateKey1test" =
      (match BlockchainAdapter.waitForConfirmation broadcastFailEnv
          broadcastFailEnv.mockTxId with
       | Except.ok confirmedTx =>
           { success := true
             transactionId := broadcastFailEnv.mockTxId
             creditRecord := some
               (BlockchainAdapter.extractCreditRecord broadcastFailEnv confirmedTx
                 "aleo1user")
             error := none }
       | Except.error e =>
           { success := false, transactionId := "", creditRecord := none,
             error := some e }) ∧
    1 ≤ BlockchainAdapter.confirmationPolls broadcastFailEnv
      broadcastFailEnv.mockTxId) :=
  ⟨rfl, c7_amended broadcastFailEnv "credit_score.aleo" exampleProof
    "aleo1user" "APrivateKey1test" rfl⟩

/-- An environment in which every status-poll HTTP call errors. -/
def errorPollEnv : ChainEnv :=
  { polls := fun _ => none
    broadcastTxId := some "at1tx"
    mockTxId := "at1mock"
    mockHeight := fun _ => 42
    mockScore := 0
    now := 321 }

/-- C8 counterexample: a poll whose HTTP query errors does not count
toward the attempt ceiling as a transient failure.  `queryTransaction`
masks the error as a confirmed mock transaction, so `waitForConfirmation`
returns success after that single poll instead of continuing to poll
(and instead of timing out when the remaining polls would stay
unresolved). -/
theorem c8_counterexample :
    BlockchainAdapter.waitForConfirmation errorPollEnv "at1tx" =
      Except.ok { id := "at1tx", status := TxStatus.confirmed,
                  blockHeight := some 42, timestamp := some 321 } ∧
    BlockchainAdapter.confirmationPolls errorPollEnv "at1tx" = 1 := by
  exact ⟨rfl, rfl⟩

/-- C8 amended: `waitForConfirmation` issues at most 20 status polls;
when every poll observes `pending` it issues exactly 20 polls, sleeps
the fixed 500 ms interval between attempts (10000 ms in total), and
raises the confirmation-timeout `TransactionError` rather than
returning silently; but a poll whose HTTP query errors is masked by
`queryTransaction` as a confirmed mock transaction and ends the wait
successfully (see the counterexample). -/
theorem c8_amended :
    (∀ (env : ChainEnv) (txId : String),
      BlockchainAdapter.confirmationPolls env txId ≤ TX_POLLING.MAX_ATTEMPTS) ∧
    (∀ (env : ChainEnv) (txId : String),
      (∀ n, (BlockchainAdapter.queryTransaction env txId n).status = TxStatus.pending) →
      BlockchainAdapter.waitForConfirmation env txId =
        Except.error "Transaction confirmation timeout" ∧
      BlockchainAdapter.confirmationPolls env txId = TX_POLLING.MAX_ATTEMPTS ∧
      BlockchainAdapter.confirmationSleepMs env txId =
        TX_POLLING.MAX_ATTEMPTS * TX_POLLING.INTERVAL) := by
  constructor
  · intro env txId
    have := BlockchainAdapter.waitLoop_polls_le env txId TX_POLLING.MAX_ATTEMPTS 0 0 0
    simpa [BlockchainAdapter.confirmationPolls,
      BlockchainAdapter.waitForConfirmationAux] using this
  · intro env txId hp
    have := BlockchainAdapter.waitLoop_pending env txId hp TX_POLLING.MAX_ATTEMPTS 0 0 0
    refine ⟨?_, ?_, ?_⟩ <;>
      simp [BlockchainAdapter.waitForConfirmation, BlockchainAdapter.confirmationPolls,
        BlockchainAdapter.confirmationSleepMs, BlockchainAdapter.waitForConfirmationAux,
        this]

/-- An environment in which every status poll observes `pending`. -/
def pendingEnv : ChainEnv :=
  { polls := fun _ => some
      { id := "at1tx", status := TxStatus.pending,
        blockHeight := none, timestamp := none }
    broadcastTxId := some "at1tx"
    mockTxId := "at1mock"
    mockHeight := fun _ => 0
    mockScore := 0
    now := 0 }

/-- C8 witness: the always-pending trace makes exactly 20 polls, sleeps
10000 ms, and raises the timeout error. -/
theorem c8_amended_witness :
    BlockchainAdapter.waitForConfirmation pendingEnv "at1tx" =
      Except.error "Transaction confirmation timeout" ∧
    BlockchainAdapter.confirmationPolls pendingEnv "at1tx" = 20 ∧
    BlockchainAdapter.confirmationSleepMs pendingEnv "at1tx" = 10000 :=
  c8_amended.2 pendingEnv "at1tx" (fun _ => rfl)

/- ======================================================================
   Cache lemmas
   ====================================================================== -/

namespace DataAggregator

theorem cacheGet_cons_hit (rest : Cache) (k : String) (m : WalletMetrics)
    (t t2 : Int) (h : t2 - t < CACHE_CONFIG.METRICS_TTL) :
    cacheGet ((k, m, t) :: rest) k t2 =
      some (m, cacheInsert ((k, m, t) :: rest) k m t2) := by
  simp [cacheGet, List.find?, h]

theorem cacheSet_cons (c : Cache) (k : String) (m : WalletMetrics) (t : Int) :
    cacheSet c k m t =
      (k, m, t) :: (c.filter (fun e => !(e.1 == k))).take 99 := by
  unfold cacheSet cacheInsert CACHE_CONFIG.MAX_CACHE_SIZE
  rw [show (100 : Nat) = 99 + 1 from rfl, List.take_succ_cons]

theorem cacheGet_some_shape {c : Cache} {k : String} {t : Int}
    {m : WalletMetrics} {c2 : Cache} (h : cacheGet c k t = some (m, c2)) :
    c2 = cacheInsert c k m t := by
  unfold cacheGet at h
  split at h
  · simp at h
  · split at h
    · simp only [Option.some.injEq, Prod.mk.injEq] at h
      rw [← h.2, h.1]
    · simp at h

end DataAggregator

/-- C9 amended: with mock data disabled (the production path), two
`fetchWalletMetrics` calls for the same well-formed address, the second
within the cache TTL of the first and with no invalidation in between,
return the same metrics record field for field: the first call caches
(or refreshes) the entry and the second is served from the cache. -/
theorem c9_cache_identical (env : DataAggregator.RpcEnv)
    (c : DataAggregator.Cache) (addr : String) (t1 t2 : Int)
    (hfmt : jsStartsWith addr "aleo1" = true) (h12 : t1 ≤ t2)
    (hTTL : t2 - t1 < CACHE_CONFIG.METRICS_TTL) :
    ∃ m c1 c2,
      DataAggregator.fetchWalletMetrics env false c addr t1 = Except.ok (m, c1) ∧
      DataAggregator.fetchWalletMetrics env false c1 addr t2 = Except.ok (m, c2) := by
  have hne : ¬(addr = "") := by
    intro he
    subst he
    exact absurd hfmt (by decide)
  have hhit : ∀ (M : WalletMetrics) (rest : DataAggregator.Cache) (t t' : Int),
      t' - t < CACHE_CONFIG.METRICS_TTL →
      DataAggregator.fetchWalletMetrics env false ((addr, M, t) :: rest) addr t' =
        Except.ok (M, DataAggregator.cacheInsert ((addr, M, t) :: rest) addr M t') := by
    intro M rest t t' ht
    unfold DataAggregator.fetchWalletMetrics
    rw [if_neg (by simp [hne, hfmt]), DataAggregator.cacheGet_cons_hit _ _ _ _ _ ht]
  cases hget : DataAggregator.cacheGet c addr t1 with
  | none =>
    have h1 : DataAggregator.fetchWalletMetrics env false c addr t1 =
        Except.ok (DataAggregator.queriedMetrics env addr t1,
          DataAggregator.cacheSet c addr (DataAggregator.queriedMetrics env addr t1) t1) := by
      unfold DataAggregator.fetchWalletMetrics
      rw [if_neg (by simp [hne, hfmt]), hget]
      rfl
    have h2 := hhit (DataAggregator.queriedMetrics env addr t1)
      ((c.filter (fun e => !(e.1 == addr))).take 99) t1 t2 hTTL
    rw [← DataAggregator.cacheSet_cons] at h2
    exact ⟨_, _, _, h1, h2⟩
  | some p =>
    obtain ⟨m0, c1'⟩ := p
    have hshape := DataAggregator.cacheGet_some_shape hget
    have h1 : DataAggregator.fetchWalletMetrics env false c addr t1 =
        Except.ok (m0, c1') := by
      unfold DataAggregator.fetchWalletMetrics
      rw [if_neg (by simp [hne, hfmt]), hget]
    have h2 := hhit m0 (c.filter (fun e => !(e.1 == addr))) t1 t2 hTTL
    rw [show ((addr, m0, t1) :: c.filter (fun e => !(e.1 == addr)) :
        DataAggregator.Cache) = DataAggregator.cacheInsert c addr m0 t1 from rfl,
      ← hshape] at h2
    exact ⟨_, _, _, h1, h2⟩

/-- An RPC environment in which every per-field query fails (all
fall back to the per-field mocks). -/
def mockRpcEnv : DataAggregator.RpcEnv :=
  { txCountResp := fun _ => none
    firstSeenResp := fun _ => none
    defiResp := fun _ => none
    lendingResp := fun _ => none
    balanceResp := fun _ => none }

set_option maxRecDepth 4000 in
/-- C9 counterexample: with mock data enabled (development), the cache
is bypassed — nothing is stored — and `lastTransactionDate` is
recomputed from the current time, so two fetches for the same address
one millisecond apart (well inside the TTL) return records that differ
in that field. -/
theorem c9_counterexample :
    DataAggregator.fetchWalletMetrics mockRpcEnv true [] "aleo1a" 0 =
      Except.ok (DataAggregator.getMockMetrics "aleo1a" 0, []) ∧
    DataAggregator.fetchWalletMetrics mockRpcEnv true [] "aleo1a" 1 =
      Except.ok (DataAggregator.getMockMetrics "aleo1a" 1, []) ∧
    (DataAggregator.getMockMetrics "aleo1a" 0).lastTransactionDate ≠
      (DataAggregator.getMockMetrics "aleo1a" 1).lastTransactionDate :=
  ⟨rfl, rfl, by decide⟩

/-- C9 witness: the amended statement at a concrete address, cache and
pair of times. -/
theorem c9_cache_identical_witness :
    jsStartsWith "aleo1a" "aleo1" = true ∧ (0 : Int) ≤ 1 ∧
    (1 : Int) - 0 < CACHE_CONFIG.METRICS_TTL ∧
    (∃ m c1 c2,
      DataAggregator.fetchWalletMetrics mockRpcEnv false [] "aleo1a" 0 =
        Except.ok (m, c1) ∧
      DataAggregator.fetchWalletMetrics mockRpcEnv false c1 "aleo1a" 1 =
        Except.ok (m, c2)) :=
  ⟨by decide, by decide, by decide,
   c9_cache_identical mockRpcEnv [] "aleo1a" 0 1 (by decide) (by decide) (by decide)⟩

theorem ProofGenerator.bytesToHex_length (bs : List Nat) :
    (ProofGenerator.bytesToHex bs).length = 2 * bs.length :=
  ProofGenerator.bytesToHexChars_length bs

/-- C10: every proof object returned by `generateProof` passes
`verifyProofLocally`, for any assessment and any randomness: its
`proofHash` is the 64-character hex SHA-256 digest of the serialised
components (in particular non-empty), and its `publicInputs` list is
exactly the three entries `finalScore`, `timestamp`, `address` — so
the local verification gate never rejects a freshly generated proof. -/
theorem c10_generated_proof_verifies (assessment : CreditAssessment)
    (entropy : Nat → List Nat) :
    ProofGenerator.verifyProofLocally (ProofGenerator.generateProof assessment entropy) = true ∧
    (ProofGenerator.generateProof assessment entropy).proofHash.length = 64 ∧
    (ProofGenerator.generateProof assessment entropy).publicInputs =
      [toString assessment.finalScore, toString assessment.timestamp,
        assessment.address] ∧
    (ProofGenerator.generateProof assessment entropy).publicInputs.length = 3 := by
  have hlen : (ProofGenerator.generateProof assessment entropy).proofHash.length = 64 := by
    show (ProofGenerator.hashProof _).length = 64
    unfold ProofGenerator.hashProof
    rw [ProofGenerator.bytesToHex_length, Sha256.sha256_length]
  have hne : ¬((ProofGenerator.generateProof assessment entropy).proofHash = "" ∨
      (ProofGenerator.generateProof assessment entropy).proofHash.length = 0) := by
    intro hor
    rcases hor with hh | hh
    · rw [hh] at hlen
      exact absurd hlen (by decide)
    · omega
  have hpi : ¬((ProofGenerator.generateProof assessment entropy).publicInputs.length = 0) := by
    show ¬(([toString assessment.finalScore, toString assessment.timestamp,
      assessment.address] : List String).length = 0)
    simp
  refine ⟨?_, hlen, rfl, rfl⟩
  unfold ProofGenerator.verifyProofLocally
  rw [if_neg hne, if_neg hpi]
